import Mathlib

/-!
Shallow embedding of the desktop launcher in src/src-tauri/src/main.rs
(trade-journal).  The launcher resolves a working directory, spawns the
Python backend, polls HTTP health endpoints in two bounded-retry phases
(liveness, then readiness), reports progress percentages to a native
splash window, and stops the child process from the window-close handler.

Paths are modelled as lists of components (root first); rendering a path
joins the components with "/".  `Path.parent` returns `none` exactly for
the empty (root) path, matching Rust's `Path::parent` on the filesystem
root.  HTTP results are either a response with a numeric status or a
transport error.  All effectful inputs (filesystem queries, spawn
results, endpoint responses) are supplied by explicit environment
records, so every run of the supervisor is a pure function of its
environment.
-/

/-- A filesystem path, as a list of components, root first. -/
abbrev FsPath := List String

/-- `Path::parent`: drop the last component; `none` on the root. -/
def parentDir : FsPath → Option FsPath
  | [] => none
  | p => some p.dropLast

/-- Rust `Path::ends_with(s)` for a single-component `s`:
the last component equals `s`. -/
def lastComponentIs (p : FsPath) (s : String) : Bool :=
  p.getLast? == some s

/-- Render a path for error messages (components joined by "/"). -/
def pathStr (p : FsPath) : String :=
  String.intercalate "/" p

/-- Environment consulted by working-directory resolution in
`start_python_server` (main.rs lines 307-350): the Tauri resource
directory, the launcher executable path, the current working directory
(each `none` when the corresponding query fails), and which directories
contain the entry file `app.py`. -/
structure ResolveEnv where
  resourceDir : Option FsPath
  currentExe : Option FsPath
  currentDir : Option FsPath
  hasAppPy : FsPath → Bool

/-- The development-layout candidate derived from the executable path
(main.rs lines 315-334): take the executable's parent directory; when it
ends in `debug` or `release`, walk up three more levels to the assumed
project root, otherwise use the parent directly.  `none` when any of the
required path operations fails. -/
def devCandidate (env : ResolveEnv) : Option FsPath :=
  match env.currentExe with
  | none => none
  | some exe =>
    match parentDir exe with
    | none => none
    | some par =>
      if lastComponentIs par "debug" || lastComponentIs par "release" then
        (parentDir par).bind (fun p => (parentDir p).bind parentDir)
      else
        some par

/-- Working-directory selection in `start_python_server` (main.rs lines
309-342): use the resource directory when it contains app.py; otherwise,
when the resource directory is available, derive the development
directory from the executable path; the current working directory is
consulted only when the resource-directory query itself fails. -/
def resolveWorkingDir (env : ResolveEnv) : Except String FsPath :=
  match env.resourceDir with
  | some rd =>
    if env.hasAppPy rd then Except.ok rd
    else
      match env.currentExe with
      | none => Except.error "Failed to get executable path"
      | some exe =>
        match parentDir exe with
        | none => Except.error "Failed to get executable parent directory"
        | some par =>
          if lastComponentIs par "debug" || lastComponentIs par "release" then
            match (parentDir par).bind (fun p => (parentDir p).bind parentDir) with
            | none => Except.error "Failed to get project root from target directory"
            | some root => Except.ok root
          else Except.ok par
  | none =>
    match env.currentDir with
    | some cd => Except.ok cd
    | none => Except.error "Failed to get current directory"

/-- The full resolution step of `start_python_server` (main.rs lines
309-350): select a working directory, then verify it contains `app.py`,
failing with an error that names the checked path otherwise. -/
def resolveStep (env : ResolveEnv) : Except String FsPath :=
  match resolveWorkingDir env with
  | Except.error e => Except.error e
  | Except.ok wd =>
    if env.hasAppPy wd then Except.ok wd
    else Except.error ("app.py not found at: " ++ pathStr (wd ++ ["app.py"]))

/-- Spec-side definition, following the claim's words: the ordered
candidate list of working-directory layouts — packaged resource
directory, development layout derived from the executable path, current
working directory. -/
def specCandidates (env : ResolveEnv) : List FsPath :=
  (match env.resourceDir with | some d => [d] | none => []) ++
  (match devCandidate env with | some d => [d] | none => []) ++
  (match env.currentDir with | some d => [d] | none => [])

/-- Spec-side definition, following the claim's words: resolution
returns the first candidate directory that contains `app.py`. -/
def specFirstCandidate (env : ResolveEnv) : Option FsPath :=
  (specCandidates env).find? env.hasAppPy

/-- Concrete environment for the C1 counterexample: the resource
directory exists but lacks app.py, the executable-derived development
directory lacks app.py, and only the current working directory contains
app.py. -/
def c1Env : ResolveEnv where
  resourceDir := some ["res"]
  currentExe := some ["home", "me", "app", "bin", "tj"]
  currentDir := some ["cwd"]
  hasAppPy := fun p => p == ["cwd"]

/-- Outcome of a blocking HTTP GET: a response carrying a status code,
or a transport error (connection refused, etc.). -/
inductive HttpResult where
  | ok (status : Nat)
  | err
deriving DecidableEq

/-- `reqwest::StatusCode::is_success`: 2xx. -/
def httpIsSuccess (s : Nat) : Bool :=
  200 ≤ s && s < 300

/-- One liveness attempt (main.rs lines 482-501): GET `/api/health`;
accepted on a 2xx response.  On a transport error — and only then — the
root endpoint is also tried and accepted on a 2xx response.  Returns
(accepted, root endpoint consulted). -/
def livenessAttempt (h r : HttpResult) : Bool × Bool :=
  match h with
  | HttpResult.ok s => (httpIsSuccess s, false)
  | HttpResult.err =>
    match r with
    | HttpResult.ok s => (httpIsSuccess s, true)
    | HttpResult.err => (false, true)

/-- One readiness attempt (main.rs lines 671-722): GET `/login`;
accepted on a 2xx response.  On a transport error — and only then — the
root endpoint is also tried and accepted on a 2xx or a 401 response.
Returns (accepted, root endpoint consulted). -/
def readinessAttempt (l r : HttpResult) : Bool × Bool :=
  match l with
  | HttpResult.ok s => (httpIsSuccess s, false)
  | HttpResult.err =>
    match r with
    | HttpResult.ok s => (httpIsSuccess s || s == 401, true)
    | HttpResult.err => (false, true)

/-- Result of `child.try_wait()` after the 5-second settle sleep
(main.rs lines 450-476).  The exit status is carried in its displayed
form. -/
inductive TryWaitResult where
  | exited (status : String)
  | running
  | checkErr (msg : String)
deriving DecidableEq

/-- Host OS family, which selects the spawn path. -/
inductive OSKind where
  | windows
  | unixLike
deriving DecidableEq

/-- The three spawn paths of `start_python_server` (main.rs lines
405-443): `cmd /C launch_server.bat`, `bash launch_server.sh`, or the
Python interpreter invoked directly on `app.py`. -/
inductive SpawnPath where
  | winScript
  | unixScript
  | direct
deriving DecidableEq

/-- How a standard stream of the child is configured at spawn time.
`piped` is the only configuration under which Rust's `child.stdout` /
`child.stderr` is `Some`; the launcher never uses it. -/
inductive StdioCfg where
  | inheritParent
  | logFile
  | piped
deriving DecidableEq

/-- Stdout configuration per spawn path: the Unix script path redirects
to the log file (main.rs lines 425-426); the Windows script path and the
direct path leave the streams at their default (inherited). -/
def stdoutCfg : SpawnPath → StdioCfg
  | SpawnPath.winScript => StdioCfg.inheritParent
  | SpawnPath.unixScript => StdioCfg.logFile
  | SpawnPath.direct => StdioCfg.inheritParent

/-- Stderr configuration per spawn path (same shape as stdout). -/
def stderrCfg : SpawnPath → StdioCfg
  | SpawnPath.winScript => StdioCfg.inheritParent
  | SpawnPath.unixScript => StdioCfg.logFile
  | SpawnPath.direct => StdioCfg.inheritParent

/-- Rust `child.stdout` (resp. `stderr`) after spawn: present, carrying
the buffered content, exactly when the stream was piped. -/
def pipeHandle (cfg : StdioCfg) (buffered : String) : Option String :=
  match cfg with
  | StdioCfg.piped => some buffered
  | _ => none

/-- Observable events of one supervisor run, in order: progress reports
with a percentage (`update_status_with_progress`), status reports
without one (`update_status`, used on errors), HTTP probes of the four
endpoints, the 2-second sleeps between liveness attempts, the spawn of
the child, the successful completion of the liveness phase (i.e.
`start_python_server` returning Ok), showing the main window, and
process exit. -/
inductive Event where
  | progress (pct : Nat)
  | errStatus (msg : String)
  | probeHealth (attempt : Nat)
  | probeRootLive (attempt : Nat)
  | probeLogin (attempt : Nat)
  | probeRootReady (attempt : Nat)
  | sleep2
  | spawn
  | liveSuccess
  | showWindow
  | exit (code : Nat)
deriving DecidableEq

/-- Environment of one full supervisor run: the resolution environment,
the OS family, whether a launch script exists in the working directory,
whether creating/cloning the log file succeeds, the spawn outcome
(child pid or failure), the settle-window `try_wait` outcome, the
(hypothetical) buffered stream contents, the per-attempt endpoint
responses of both phases, and the per-iteration outcome of
`check_python_startup_indicators`. -/
structure RunEnv where
  renv : ResolveEnv
  osKind : OSKind
  launchScriptExists : Bool
  logCreateOk : Bool
  logCloneOk : Bool
  spawnResult : Option Nat
  tryWait : TryWaitResult
  childOutBuf : String
  childErrBuf : String
  health : Nat → HttpResult
  rootLive : Nat → HttpResult
  login : Nat → HttpResult
  rootReady : Nat → HttpResult
  indicator : Nat → Bool

/-- Which spawn path `start_python_server` takes (main.rs lines
388-441): the launch script when present (via `cmd` on Windows, `bash`
otherwise), else the interpreter directly. -/
def spawnPath (env : RunEnv) : SpawnPath :=
  if env.launchScriptExists then
    match env.osKind with
    | OSKind.windows => SpawnPath.winScript
    | OSKind.unixLike => SpawnPath.unixScript
  else SpawnPath.direct

/-- `child.stdout` at capture time, as determined by the spawn path. -/
def capturedStdout (env : RunEnv) : Option String :=
  pipeHandle (stdoutCfg (spawnPath env)) env.childOutBuf

/-- `child.stderr` at capture time, as determined by the spawn path. -/
def capturedStderr (env : RunEnv) : Option String :=
  pipeHandle (stderrCfg (spawnPath env)) env.childErrBuf

/-- The early-exit error message (main.rs lines 465-468): the displayed
exit status followed by the captured stream contents. -/
def earlyExitMsg (status stdoutStr stderrStr : String) : String :=
  "Python process exited early with status: " ++ status ++
    "\n\nSTDOUT:\n" ++ stdoutStr ++ "\n\nSTDERR:\n" ++ stderrStr

/-- The post-spawn settle check (main.rs lines 450-476): after the fixed
5-second sleep, `try_wait` is consulted; if the child already exited the
step fails with the exit status and whatever stream content could be
captured (reading is skipped for an absent handle, leaving the captured
text empty); a `try_wait` error also fails; a still-running child
passes. -/
def settleCheck (tw : TryWaitResult) (o e : Option String) :
    Except String Unit :=
  match tw with
  | TryWaitResult.exited st =>
      Except.error (earlyExitMsg st (o.getD "") (e.getD ""))
  | TryWaitResult.running => Except.ok ()
  | TryWaitResult.checkErr m =>
      Except.error ("Failed to check process status: " ++ m)

/-- The liveness polling loop (main.rs lines 478-505), started at
`attempt` with `fuel` iterations left (the source runs attempts 1..=20,
i.e. fuel 20 from attempt 1).  Each iteration probes `/api/health`,
consulting the root endpoint exactly on a transport error; on acceptance
the loop breaks; otherwise it sleeps 2 seconds — except after the last
iteration — and continues.  Returns the emitted events and whether the
server was found live.  `livenessEvts` lists the probe events of one
iteration: the health probe, then the root probe when consulted. -/
def livenessEvts (env : RunEnv) (attempt : Nat) : List Event :=
  Event.probeHealth attempt ::
    (if (livenessAttempt (env.health attempt) (env.rootLive attempt)).2 then
      [Event.probeRootLive attempt]
    else [])

/-- See `livenessEvts`: the loop itself. -/
def livenessGo (env : RunEnv) : Nat → Nat → List Event × Bool
  | _, 0 => ([], false)
  | attempt, f + 1 =>
    if (livenessAttempt (env.health attempt) (env.rootLive attempt)).1 then
      (livenessEvts env attempt, true)
    else if f = 0 then (livenessEvts env attempt, false)
    else
      (livenessEvts env attempt ++ Event.sleep2 :: (livenessGo env (attempt + 1) f).1,
        (livenessGo env (attempt + 1) f).2)

/-- The "not responding" error produced when the liveness budget is
exhausted (main.rs line 508). -/
def notRespondingMsg : String :=
  "Python server started but not responding properly on port 8000. Check for errors in the Python console."

/-- `start_python_server` (main.rs lines 307-513): resolve the working
directory and verify `app.py`, create the log file, spawn the child,
run the settle check, then the liveness loop.  Returns the events the
call emits together with its result (the child pid on success, the
error string otherwise). -/
def start_python_server (env : RunEnv) : List Event × Except String Nat :=
  match resolveStep env.renv with
  | Except.error e => ([], Except.error e)
  | Except.ok _ =>
    if env.logCreateOk then
      if env.logCloneOk then
        match env.spawnResult with
        | none =>
          ([], Except.error "Failed to start Python server: spawn failed. Make sure Python is installed and in PATH.")
        | some pid =>
          match settleCheck env.tryWait (capturedStdout env) (capturedStderr env) with
          | Except.error m => ([Event.spawn], Except.error m)
          | Except.ok _ =>
            let live := livenessGo env 1 20
            (Event.spawn :: live.1,
              if live.2 then Except.ok pid else Except.error notRespondingMsg)
      else ([], Except.error "Failed to clone log file")
    else ([], Except.error "Failed to create log file")

/-- The fixed splash reports before `start_python_server` is called
(main.rs lines 562-569). -/
def preSplash : List Event :=
  [Event.progress 5, Event.progress 8, Event.progress 12, Event.progress 15]

/-- The database-phase indicator loop (main.rs lines 600-607): nine
iterations; at the first iteration `i` (0-based) where
`check_python_startup_indicators` detects activity, a report with
percentage `26 + i` is emitted and the loop breaks. -/
def indicatorEvents (env : RunEnv) : List Event :=
  match (List.range 9).find? env.indicator with
  | some i => [Event.progress (26 + i)]
  | none => []

/-- The fixed splash reports after `start_python_server` returns Ok
(main.rs lines 589-619), with the indicator report in the middle. -/
def splashAfterLaunch (env : RunEnv) : List Event :=
  [Event.progress 18, Event.progress 20, Event.progress 23, Event.progress 26] ++
    indicatorEvents env ++
    [Event.progress 30, Event.progress 33, Event.progress 36, Event.progress 38]

/-- The readiness polling loop of the background thread (main.rs lines
650-746), started at `attempt` with `fuel` iterations left (the source
runs attempts 1..=15, i.e. fuel 15 from attempt 1).  Each iteration
first reports progress `38 + attempt * 52 / 15`, then probes `/login`,
consulting the root endpoint exactly on a transport error (a 401 from
the root endpoint is also accepted); on acceptance it reports 95 and
100 and shows the main window; otherwise — except after the last
attempt — it emits four sub-wait reports (`base + subWait / 4` for
subWait = 1..4) while sleeping, and continues.  Exhausting all attempts
reports a failure status (without a percentage) and exits with code 1.
`readyBasePct` is the header percentage of an attempt,
`38 + attempt * 52 / 15` (integer division), mapping attempts 1..15 to
41..90. -/
def readyBasePct (attempt : Nat) : Nat :=
  38 + attempt * 52 / 15

/-- See `readinessGo`: the probe events of one readiness iteration. -/
def readinessProbes (env : RunEnv) (attempt : Nat) : List Event :=
  Event.probeLogin attempt ::
    (if (readinessAttempt (env.login attempt) (env.rootReady attempt)).2 then
      [Event.probeRootReady attempt]
    else [])

/-- See the comment above `readyBasePct`: the loop itself. -/
def readinessGo (env : RunEnv) : Nat → Nat → List Event
  | _, 0 => [Event.errStatus "Failed to start server", Event.exit 1]
  | attempt, f + 1 =>
    Event.progress (readyBasePct attempt) :: readinessProbes env attempt ++
      (if (readinessAttempt (env.login attempt) (env.rootReady attempt)).1 then
        [Event.progress 95, Event.progress 100, Event.showWindow]
      else
        (if f = 0 then []
        else
          [Event.progress (readyBasePct attempt), Event.progress (readyBasePct attempt),
            Event.progress (readyBasePct attempt),
            Event.progress (readyBasePct attempt + 1)]) ++
          readinessGo env (attempt + 1) f)

/-- One full supervisor run (the `setup` closure of `run`, main.rs lines
541-762), as the ordered list of events it emits: the pre-launch splash
reports, the events of `start_python_server`, then — on failure — an
error status and exit(1), or — on success — the post-launch splash
reports followed by the readiness loop. -/
def runTrace (env : RunEnv) : List Event :=
  preSplash ++ (start_python_server env).1 ++
    (match (start_python_server env).2 with
      | Except.error e => [Event.errStatus ("Error: " ++ e), Event.exit 1]
      | Except.ok _ =>
        Event.liveSuccess :: (splashAfterLaunch env ++ readinessGo env 1 15))

/-- The percentages of the progress events of a trace, in order. -/
def progressOf (l : List Event) : List Nat :=
  l.filterMap (fun e => match e with | Event.progress p => some p | _ => none)

/-- The sequence of percentages passed to
`update_status_with_progress` across one run. -/
def progressSeq (env : RunEnv) : List Nat :=
  progressOf (runTrace env)

/-- `monoFrom lo l`: every element of `l` is at least `lo` and at least
every element before it. -/
def monoFrom : Nat → List Nat → Bool
  | _, [] => true
  | lo, x :: xs => decide (lo ≤ x) && monoFrom x xs

/-- The window-close handler (main.rs lines 750-759) acting on the
stored child-handle slot: `take()` the handle and, when one was present,
stop the server.  Returns the new slot content and whether
`stop_python_server` was invoked. -/
def closeHandlerStep (slot : Option Nat) : Option Nat × Bool :=
  match slot with
  | some _ => (none, true)
  | none => (none, false)

/-- The handle slot after `k` invocations of the close handler. -/
def closeIter : Nat → Option Nat → Option Nat
  | 0, s => s
  | k + 1, s => (closeHandlerStep (closeIter k s)).1

/-- The stored child-handle slot after a run in which the close handler
fired `k` times: when `start_python_server` failed the process exits
before `PythonServerState` is ever populated (outer `none`); on success
the slot starts out holding the child and each close-handler invocation
takes it. -/
def handleAfter (env : RunEnv) (k : Nat) : Option (Option Nat) :=
  match (start_python_server env).2 with
  | Except.ok pid => some (closeIter k (some pid))
  | Except.error _ => none

/-- Event classifiers used by the claims. -/
def isLiveEvt : Event → Bool
  | Event.liveSuccess => true
  | _ => false

/-- A readiness-phase observable: a readiness probe (login or its root
fallback), showing the main window, or the 100% report. -/
def isReadyEvt : Event → Bool
  | Event.probeLogin _ => true
  | Event.probeRootReady _ => true
  | Event.showWindow => true
  | Event.progress p => p == 100
  | _ => false

def isHealthProbe : Event → Bool
  | Event.probeHealth _ => true
  | _ => false

def isSleepEvt : Event → Bool
  | Event.sleep2 => true
  | _ => false

/-- Events that the liveness loop (plus the spawn marker) may emit. -/
def isStartLoopEvt : Event → Bool
  | Event.spawn => true
  | Event.probeHealth _ => true
  | Event.probeRootLive _ => true
  | Event.sleep2 => true
  | _ => false

/-! ### Helper lemmas -/

theorem monoFrom_le {lo : Nat} : ∀ {l : List Nat}, monoFrom lo l = true →
    ∀ x ∈ l, lo ≤ x := by
  intro l
  induction l generalizing lo with
  | nil => intro _ x hx; cases hx
  | cons y ys ih =>
    intro h x hx
    simp only [monoFrom, Bool.and_eq_true, decide_eq_true_eq] at h
    rcases List.mem_cons.mp hx with rfl | hx2
    · exact h.1
    · exact le_trans h.1 (ih h.2 x hx2)

theorem monoFrom_pairwise : ∀ {l : List Nat} {lo : Nat}, monoFrom lo l = true →
    l.Pairwise (fun a b => a ≤ b) := by
  intro l
  induction l with
  | nil => intro _ _; exact List.Pairwise.nil
  | cons y ys ih =>
    intro lo h
    simp only [monoFrom, Bool.and_eq_true, decide_eq_true_eq] at h
    exact List.Pairwise.cons (monoFrom_le h.2) (ih h.2)

theorem takeWhile_append_left {α : Type} (p : α → Bool) :
    ∀ (l₁ l₂ : List α), (∀ a ∈ l₁, p a = true) →
      (l₁ ++ l₂).takeWhile p = l₁ ++ l₂.takeWhile p := by
  intro l₁
  induction l₁ with
  | nil => intro l₂ _; simp
  | cons x xs ih =>
    intro l₂ h
    have hx : p x = true := h x (List.mem_cons_self x xs)
    simp only [List.cons_append, List.takeWhile_cons, hx, if_true]
    rw [ih l₂ (fun a ha => h a (List.mem_cons_of_mem x ha))]

theorem all_imp {α : Type} {l : List α} {p q : α → Bool}
    (hpq : ∀ e, p e = true → q e = true) (h : l.all p = true) : l.all q = true := by
  rw [List.all_eq_true] at h ⊢
  exact fun e he => hpq e (h e he)

theorem progressOf_eq_nil {l : List Event} (h : l.all isStartLoopEvt = true) :
    progressOf l = [] := by
  rw [List.all_eq_true] at h
  rw [progressOf, List.filterMap_eq_nil_iff]
  intro e he
  have he2 := h e he
  cases e <;> first | rfl | exact Bool.noConfusion he2

theorem startLoop_notLive {e : Event} (h : isStartLoopEvt e = true) :
    (!isLiveEvt e) = true := by
  cases e <;> first | rfl | exact Bool.noConfusion h

theorem startLoop_notReady {e : Event} (h : isStartLoopEvt e = true) :
    (!isReadyEvt e) = true := by
  cases e <;> first | rfl | exact Bool.noConfusion h

theorem livenessEvts_all (env : RunEnv) (a : Nat) :
    (livenessEvts env a).all isStartLoopEvt = true := by
  unfold livenessEvts
  split <;> rfl

theorem livenessGo_all (env : RunEnv) :
    ∀ f a, ((livenessGo env a f).1).all isStartLoopEvt = true := by
  intro f
  induction f with
  | zero => intro a; rfl
  | succ f ih =>
    intro a
    by_cases h1 : (livenessAttempt (env.health a) (env.rootLive a)).1 = true
    · simp [livenessGo, h1, livenessEvts_all]
    · by_cases h2 : f = 0
      · simp [livenessGo, h1, h2, livenessEvts_all]
      · simp [livenessGo, h1, h2, List.all_append, livenessEvts_all, List.all_cons,
          isStartLoopEvt, ih]

theorem start_all (env : RunEnv) :
    ((start_python_server env).1).all isStartLoopEvt = true := by
  unfold start_python_server
  cases hres : resolveStep env.renv with
  | error e => rfl
  | ok wd =>
    cases h1 : env.logCreateOk with
    | false => simp [h1]
    | true =>
      cases h2 : env.logCloneOk with
      | false => simp [h1, h2]
      | true =>
        cases hs : env.spawnResult with
        | none => simp [h1, h2]
        | some pid =>
          cases hw : settleCheck env.tryWait (capturedStdout env) (capturedStderr env) with
          | error m => simp [h1, h2, hw, isStartLoopEvt]
          | ok u => simp [h1, h2, hw, List.all_cons, isStartLoopEvt, livenessGo_all]

theorem start_no_progress (env : RunEnv) :
    progressOf (start_python_server env).1 = [] :=
  progressOf_eq_nil (start_all env)

theorem livenessGo_one_fail (env : RunEnv) (a : Nat)
    (h : (livenessAttempt (env.health a) (env.rootLive a)).1 = false) :
    livenessGo env a 1 = (livenessEvts env a, false) := by
  simp [livenessGo, h]

theorem livenessGo_step_fail (env : RunEnv) (a f : Nat) (hf : f ≠ 0)
    (h : (livenessAttempt (env.health a) (env.rootLive a)).1 = false) :
    livenessGo env a (f + 1) =
      (livenessEvts env a ++ Event.sleep2 :: (livenessGo env (a + 1) f).1,
        (livenessGo env (a + 1) f).2) := by
  simp [livenessGo, h, hf]

theorem livenessEvts_counts (env : RunEnv) (a : Nat) :
    (livenessEvts env a).countP isHealthProbe = 1 ∧
    (livenessEvts env a).countP isSleepEvt = 0 ∧
    (livenessEvts env a).getLast?.all (fun e => !isSleepEvt e) = true := by
  unfold livenessEvts
  split <;> exact ⟨rfl, rfl, rfl⟩

theorem livenessGo_fail (env : RunEnv)
    (hfail : ∀ a, (livenessAttempt (env.health a) (env.rootLive a)).1 = false) :
    ∀ f a, 1 ≤ f →
      (livenessGo env a f).1.countP isHealthProbe = f ∧
      (livenessGo env a f).1.countP isSleepEvt = f - 1 ∧
      (livenessGo env a f).2 = false ∧
      (livenessGo env a f).1.getLast?.all (fun e => !isSleepEvt e) = true := by
  intro f
  induction f with
  | zero => intro a h; exact absurd h (by decide)
  | succ f ih =>
    intro a _
    by_cases hf : f = 0
    · subst hf
      rw [livenessGo_one_fail env a (hfail a)]
      obtain ⟨hc1, hc2, hc3⟩ := livenessEvts_counts env a
      exact ⟨hc1, hc2, rfl, hc3⟩
    · rw [livenessGo_step_fail env a f hf (hfail a)]
      obtain ⟨ih1, ih2, ih3, ih4⟩ := ih (a + 1) (by omega)
      obtain ⟨hc1, hc2, hc3⟩ := livenessEvts_counts env a
      have hne : (livenessGo env (a + 1) f).1 ≠ [] := by
        intro hnil
        rw [hnil] at ih1
        simp [List.countP_nil] at ih1
        omega
      obtain ⟨y, t, hyt⟩ := List.exists_cons_of_ne_nil hne
      refine ⟨?_, ?_, ih3, ?_⟩
      · rw [List.countP_append, List.countP_cons, hc1, ih1]
        simp [isHealthProbe]
        omega
      · rw [List.countP_append, List.countP_cons, hc2, ih2]
        simp [isSleepEvt]
        omega
      · rw [hyt, List.getLast?_append_cons, List.getLast?_cons_cons]
        rw [hyt] at ih4
        exact ih4

theorem readyBase_le_95 : ∀ a, a < 16 → readyBasePct a ≤ 95 := by decide

theorem readyBase_step : ∀ a, a < 15 → readyBasePct a + 1 ≤ readyBasePct (a + 1) := by
  decide

theorem readinessProbes_no_progress (env : RunEnv) (a : Nat) :
    progressOf (readinessProbes env a) = [] := by
  unfold readinessProbes progressOf
  split <;> rfl

theorem progressOf_nil : progressOf [] = [] := rfl

theorem progressOf_append (l₁ l₂ : List Event) :
    progressOf (l₁ ++ l₂) = progressOf l₁ ++ progressOf l₂ :=
  List.filterMap_append l₁ l₂ _

theorem progressOf_cons_pct (p : Nat) (l : List Event) :
    progressOf (Event.progress p :: l) = p :: progressOf l := rfl

theorem progressOf_cons_show (l : List Event) :
    progressOf (Event.showWindow :: l) = progressOf l := rfl

theorem progressOf_cons_err (m : String) (l : List Event) :
    progressOf (Event.errStatus m :: l) = progressOf l := rfl

theorem progressOf_cons_exit (c : Nat) (l : List Event) :
    progressOf (Event.exit c :: l) = progressOf l := rfl

theorem progressOf_cons_live (l : List Event) :
    progressOf (Event.liveSuccess :: l) = progressOf l := rfl

theorem readinessGo_mono (env : RunEnv) :
    ∀ f a lo, a + f = 16 → 1 ≤ a → lo ≤ readyBasePct a →
      monoFrom lo (progressOf (readinessGo env a f)) = true := by
  intro f
  induction f with
  | zero =>
    intro a lo _ _ _
    simp only [readinessGo, progressOf_cons_err, progressOf_cons_exit, progressOf_nil,
      monoFrom]
  | succ f ih =>
    intro a lo hsum ha hlo
    by_cases hs : (readinessAttempt (env.login a) (env.rootReady a)).1 = true
    · have hle : readyBasePct a ≤ 95 := readyBase_le_95 a (by omega)
      simp only [readinessGo]
      rw [if_pos hs]
      simp only [progressOf_append, progressOf_cons_pct, readinessProbes_no_progress,
        progressOf_cons_show, progressOf_nil, List.nil_append, List.cons_append,
        List.append_nil]
      simp only [monoFrom, Bool.and_eq_true, Bool.and_true, decide_eq_true_eq]
      repeat' apply And.intro
      all_goals first | assumption | trivial | omega
    · by_cases hf : f = 0
      · subst hf
        simp only [readinessGo]
        rw [if_neg hs]
        simp only [if_true, progressOf_append, progressOf_cons_pct,
          readinessProbes_no_progress, progressOf_cons_err, progressOf_cons_exit,
          progressOf_nil, List.nil_append, List.cons_append, List.append_nil]
        simp only [monoFrom, Bool.and_eq_true, Bool.and_true, decide_eq_true_eq]
        repeat' apply And.intro
        all_goals first | assumption | trivial | omega
      · have hstep : readyBasePct a + 1 ≤ readyBasePct (a + 1) := readyBase_step a (by omega)
        have ihf := ih (a + 1) (readyBasePct a + 1) (by omega) (by omega) hstep
        simp only [readinessGo]
        rw [if_neg hs, if_neg hf]
        simp only [progressOf_append, progressOf_cons_pct, readinessProbes_no_progress,
          progressOf_nil, List.nil_append, List.cons_append, List.append_nil]
        set P := progressOf (readinessGo env (a + 1) f) with hP
        simp only [monoFrom, Bool.and_eq_true, Bool.and_true, decide_eq_true_eq]
        repeat' apply And.intro
        all_goals first | assumption | trivial | omega

theorem resolveWorkingDir_cases (env : ResolveEnv) (wd : FsPath)
    (h : resolveWorkingDir env = Except.ok wd) :
    env.resourceDir = some wd ∨ devCandidate env = some wd ∨ env.currentDir = some wd := by
  unfold resolveWorkingDir at h
  split at h
  next rd hrd =>
    split at h
    next hap =>
      rw [Except.ok.injEq] at h
      subst h
      exact Or.inl hrd
    next hap =>
      split at h
      next hexe => exact Except.noConfusion h
      next exe hexe =>
        split at h
        next hp => exact Except.noConfusion h
        next par hp =>
          split at h
          next hlast =>
            split at h
            next hb => exact Except.noConfusion h
            next root hb =>
              rw [Except.ok.injEq] at h
              subst h
              refine Or.inr (Or.inl ?_)
              simp [devCandidate, hexe, hp, hlast, hb]
          next hlast =>
            rw [Except.ok.injEq] at h
            subst h
            refine Or.inr (Or.inl ?_)
            simp [devCandidate, hexe, hp, hlast]
  next hrd =>
    split at h
    next cd hcd =>
      rw [Except.ok.injEq] at h
      subst h
      exact Or.inr (Or.inr hcd)
    next hcd => exact Except.noConfusion h

theorem mem_specCandidates_of (env : ResolveEnv) (wd : FsPath)
    (h : env.resourceDir = some wd ∨ devCandidate env = some wd ∨ env.currentDir = some wd) :
    wd ∈ specCandidates env := by
  unfold specCandidates
  rcases h with h | h | h <;> rw [h] <;> simp

theorem resolveStep_error_of_no_app (r : ResolveEnv) (h : ∀ d, r.hasAppPy d = false) :
    ∃ m, resolveStep r = Except.error m := by
  unfold resolveStep
  cases hw : resolveWorkingDir r with
  | error e => exact ⟨e, rfl⟩
  | ok wd =>
    refine ⟨"app.py not found at: " ++ pathStr (wd ++ ["app.py"]), ?_⟩
    simp [h wd]

theorem closeIter_succ (k : Nat) (s : Option Nat) : closeIter (k + 1) s = none := by
  rw [closeIter]
  cases closeIter k s <;> rfl

/-! ### Concrete environments used by witnesses and counterexamples -/

/-- A resolution environment whose packaged resource directory contains
the entry file. -/
def okREnv : ResolveEnv where
  resourceDir := some ["res"]
  currentExe := none
  currentDir := none
  hasAppPy := fun p => p == ["res"]

/-- A resolution environment in which no directory contains the entry
file. -/
def noAppREnv : ResolveEnv where
  resourceDir := some ["res"]
  currentExe := some ["home", "me", "app", "bin", "tj"]
  currentDir := some ["cwd"]
  hasAppPy := fun _ => false

/-- A run environment that resolves via the packaged directory,
spawns pid 1, survives the settle window, is live on the first health
probe and ready on the first login probe, with no indicator
detection. -/
def baseRunEnv (r : ResolveEnv) : RunEnv where
  renv := r
  osKind := OSKind.unixLike
  launchScriptExists := false
  logCreateOk := true
  logCloneOk := true
  spawnResult := some 1
  tryWait := TryWaitResult.running
  childOutBuf := ""
  childErrBuf := ""
  health := fun _ => HttpResult.ok 200
  rootLive := fun _ => HttpResult.err
  login := fun _ => HttpResult.ok 200
  rootReady := fun _ => HttpResult.err
  indicator := fun _ => false

/-- Environment whose liveness primary probe always hits a transport
error while the root endpoint always answers 401. -/
def c2Env : RunEnv :=
  { baseRunEnv okREnv with
    health := fun _ => HttpResult.err
    rootLive := fun _ => HttpResult.ok 401 }

/-- Environment whose startup indicator is first detected at iteration
8 of the database phase. -/
def c3CEnv : RunEnv :=
  { baseRunEnv okREnv with indicator := fun i => i == 8 }

/-- Environment in which every liveness attempt fails: the health
endpoint always answers 500, and so does the root endpoint. -/
def c4Env : RunEnv :=
  { baseRunEnv okREnv with
    health := fun _ => HttpResult.ok 500
    rootLive := fun _ => HttpResult.ok 500 }

/-- Environment whose child exits within the settle window. -/
def c7Env : RunEnv :=
  { baseRunEnv okREnv with tryWait := TryWaitResult.exited "exit status: 1" }

/-- Environment with no entry file anywhere. -/
def c8MissingEnv : RunEnv := baseRunEnv noAppREnv

/-- Environment whose child exits within the settle window while the
hypothetical stream buffers are non-empty (they would be captured if
the streams were piped). -/
def c10Env : RunEnv :=
  { baseRunEnv okREnv with
    tryWait := TryWaitResult.exited "exit status: 127"
    childOutBuf := "boot log"
    childErrBuf := "boot error" }


/-! ### Claims -/

/-- C1 counterexample: resolution does not return the first candidate
directory containing app.py.  In `c1Env` the resource directory is
available but lacks app.py, the development candidate derived from the
executable path lacks app.py, and the current working directory — the
last candidate of the claimed fallback chain — does contain app.py; yet
resolution fails instead of returning it, because the code consults the
current working directory only when the resource-directory query itself
fails, and selects the development candidate without checking it. -/
theorem c1_resolution_counterexample :
    c1Env.hasAppPy ["cwd"] = true ∧
    specFirstCandidate c1Env = some ["cwd"] ∧
    resolveStep c1Env =
      Except.error "app.py not found at: home/me/app/bin/app.py" :=
  ⟨rfl, rfl, rfl⟩

/-- C1 (amended): resolution selects the packaged resource directory
exactly when it contains app.py; any directory it returns contains
app.py and is one of the three candidate layouts; when the selected
candidate lacks app.py resolution fails — before any spawn attempt —
with a descriptive error naming the checked path, even if a later
candidate contains app.py; and a resolution error is returned by
`start_python_server` unchanged, with no spawn performed. -/
theorem c1_resolution_amended (env : RunEnv) :
    (∀ rd, env.renv.resourceDir = some rd → env.renv.hasAppPy rd = true →
      resolveStep env.renv = Except.ok rd) ∧
    (∀ wd, resolveStep env.renv = Except.ok wd →
      env.renv.hasAppPy wd = true ∧ wd ∈ specCandidates env.renv) ∧
    (∀ wd, resolveWorkingDir env.renv = Except.ok wd → env.renv.hasAppPy wd = false →
      resolveStep env.renv =
        Except.error ("app.py not found at: " ++ pathStr (wd ++ ["app.py"]))) ∧
    (∀ e, resolveStep env.renv = Except.error e →
      Event.spawn ∉ (start_python_server env).1 ∧
      (start_python_server env).2 = Except.error e) := by
  refine ⟨?_, ?_, ?_, ?_⟩
  · intro rd hrd hap
    simp [resolveStep, resolveWorkingDir, hrd, hap]
  · intro wd h
    unfold resolveStep at h
    split at h
    next e heq => exact Except.noConfusion h
    next wd2 heq =>
      split at h
      next hap =>
        rw [Except.ok.injEq] at h
        subst h
        exact ⟨hap, mem_specCandidates_of _ _ (resolveWorkingDir_cases _ _ heq)⟩
      next hap => exact Except.noConfusion h
  · intro wd hw hap
    simp [resolveStep, hw, hap]
  · intro e he
    refine ⟨?_, ?_⟩ <;> simp [start_python_server, he]

/-- C1 witness: the amended theorem applied to concrete environments —
a packaged layout containing the entry file resolves to the resource
directory, and the counterexample layout fails with the path-naming
error and performs no spawn. -/
theorem c1_resolution_witness :
    resolveStep okREnv = Except.ok ["res"] ∧
    (Event.spawn ∉ (start_python_server (baseRunEnv c1Env)).1 ∧
      (start_python_server (baseRunEnv c1Env)).2 =
        Except.error "app.py not found at: home/me/app/bin/app.py") := by
  constructor
  · exact (c1_resolution_amended (baseRunEnv okREnv)).1 ["res"] rfl rfl
  · exact (c1_resolution_amended (baseRunEnv c1Env)).2.2.2
      "app.py not found at: home/me/app/bin/app.py" rfl

/-- C2 counterexample: a 401 from the root endpoint is NOT accepted by
the liveness phase — the liveness root fallback accepts only 2xx — while
the readiness phase does accept it; with a health endpoint in transport
error and the root endpoint constantly answering 401, the liveness loop
exhausts its budget and `start_python_server` fails. -/
theorem c2_root_fallback_counterexample :
    (livenessAttempt HttpResult.err (HttpResult.ok 401)).1 = false ∧
    (readinessAttempt HttpResult.err (HttpResult.ok 401)).1 = true ∧
    (livenessGo c2Env 1 20).2 = false ∧
    (start_python_server c2Env).2 = Except.error notRespondingMsg :=
  ⟨rfl, rfl, rfl, rfl⟩

/-- C2 (amended): when the root-path fallback is consulted, the
readiness phase accepts exactly a 2xx-or-401 response, while the
liveness phase accepts exactly a 2xx response (401 is not a positive
signal there). -/
theorem c2_root_fallback_amended (s : Nat) :
    (livenessAttempt HttpResult.err (HttpResult.ok s)).1 = httpIsSuccess s ∧
    (readinessAttempt HttpResult.err (HttpResult.ok s)).1 =
      (httpIsSuccess s || s == 401) :=
  ⟨rfl, rfl⟩

/-- C3 counterexample: the progress sequence of a run is not always
non-decreasing.  When the database-phase indicator is first detected at
iteration 8, the splash reports 34 and then the fixed 30: the reported
sequence contains 34 followed by 30. -/
theorem c3_progress_counterexample :
    progressSeq c3CEnv =
      [5, 8, 12, 15, 18, 20, 23, 26, 34, 30, 33, 36, 38, 41, 95, 100] ∧
    ¬ (progressSeq c3CEnv).Pairwise (fun a b => a ≤ b) := by
  refine ⟨rfl, ?_⟩
  decide

/-- C3 (amended): the percentages passed to
`update_status_with_progress` across a run are monotonically
non-decreasing provided the database-phase indicator is not first
detected after iteration 4 (a detection at iteration 5..8 reports
31..34, which the subsequent fixed report of 30 undercuts; in every
other respect the sequence is non-decreasing). -/
theorem c3_progress_monotone_amended (env : RunEnv)
    (hind : ∀ i, (List.range 9).find? env.indicator = some i → i ≤ 4) :
    (progressSeq env).Pairwise (fun a b => a ≤ b) := by
  apply @monoFrom_pairwise (progressSeq env) 0
  unfold progressSeq runTrace
  rw [progressOf_append, progressOf_append, start_no_progress]
  cases hr : (start_python_server env).2 with
  | error e =>
    simp [preSplash, progressOf_cons_err, progressOf_cons_exit, progressOf_nil,
      progressOf_cons_pct, monoFrom]
  | ok pid =>
    have hready : monoFrom 38 (progressOf (readinessGo env 1 15)) = true :=
      readinessGo_mono env 15 1 38 (by decide) (by decide) (by decide)
    rw [progressOf_cons_live, progressOf_append]
    generalize hR : progressOf (readinessGo env 1 15) = R
    rw [hR] at hready
    cases hi : (List.range 9).find? env.indicator with
    | none =>
      have hind0 : indicatorEvents env = [] := by simp [indicatorEvents, hi]
      simp only [preSplash, splashAfterLaunch, hind0, progressOf_append,
        progressOf_cons_pct, progressOf_nil, List.nil_append, List.append_nil,
        List.cons_append]
      simp only [monoFrom, Bool.and_eq_true, Bool.and_true, decide_eq_true_eq]
      repeat' apply And.intro
      all_goals first | omega | exact hready
    | some i =>
      have hi4 : i ≤ 4 := hind i hi
      have hind1 : indicatorEvents env = [Event.progress (26 + i)] := by
        simp [indicatorEvents, hi]
      simp only [preSplash, splashAfterLaunch, hind1, progressOf_append,
        progressOf_cons_pct, progressOf_nil, List.nil_append, List.append_nil,
        List.cons_append]
      simp only [monoFrom, Bool.and_eq_true, Bool.and_true, decide_eq_true_eq]
      repeat' apply And.intro
      all_goals first | omega | exact hready

/-- C3 witness: the amended theorem applied to a run with no indicator
detection; its full progress sequence is non-decreasing. -/
theorem c3_progress_witness :
    (progressSeq (baseRunEnv okREnv)).Pairwise (fun a b => a ≤ b) :=
  c3_progress_monotone_amended (baseRunEnv okREnv) (fun _ h => Option.noConfusion h)

/-- C4: when every liveness attempt fails (non-2xx health status,
failing root fallback), the liveness loop issues exactly its budget of
20 health probes, sleeps the fixed 2-second interval exactly 19 times —
between consecutive attempts, never after the last event — reports no
success, and `start_python_server` (reaching the loop) fails with the
"not responding" error. -/
theorem c4_liveness_budget (env : RunEnv)
    (hfail : ∀ a, (livenessAttempt (env.health a) (env.rootLive a)).1 = false) :
    (livenessGo env 1 20).1.countP isHealthProbe = 20 ∧
    (livenessGo env 1 20).1.countP isSleepEvt = 19 ∧
    (livenessGo env 1 20).2 = false ∧
    (livenessGo env 1 20).1.getLast?.all (fun e => !isSleepEvt e) = true ∧
    (∀ wd pid, resolveStep env.renv = Except.ok wd → env.logCreateOk = true →
      env.logCloneOk = true → env.spawnResult = some pid →
      env.tryWait = TryWaitResult.running →
      (start_python_server env).2 = Except.error notRespondingMsg) := by
  obtain ⟨h1, h2, h3, h4⟩ := livenessGo_fail env hfail 20 1 (by decide)
  refine ⟨h1, h2, h3, h4, ?_⟩
  intro wd pid hres hlog hclone hspawn htw
  unfold start_python_server
  split
  next e heq => rw [heq] at hres; exact Except.noConfusion hres
  next wd2 heq =>
    rw [hlog, hclone, hspawn, htw]
    simp only [if_true, settleCheck, h3, if_false, Bool.false_eq_true]

/-- C4 witness: the budget theorem applied to the concrete environment
whose health endpoint always answers 500 and whose root endpoint also
always answers 500. -/
theorem c4_liveness_budget_witness :
    (livenessGo c4Env 1 20).1.countP isHealthProbe = 20 ∧
    (livenessGo c4Env 1 20).1.countP isSleepEvt = 19 ∧
    (livenessGo c4Env 1 20).2 = false ∧
    (start_python_server c4Env).2 = Except.error notRespondingMsg := by
  obtain ⟨h1, h2, h3, h4, h5⟩ := c4_liveness_budget c4Env (fun a => rfl)
  exact ⟨h1, h2, h3, h5 ["res"] 1 rfl rfl rfl rfl rfl⟩

/-- C5: ordering of the two health phases.  Every event of a run that
precedes the first successful-liveness marker (i.e. everything emitted
before `start_python_server` returned Ok) is neither a readiness probe
(login probe or its root fallback) nor a Ready outcome (showing the
main window, or a 100% progress report); this holds for every
interleaving of endpoint responses, and in runs that never reach
liveness it covers the entire trace. -/
theorem c5_readiness_gated (env : RunEnv) :
    (((runTrace env).takeWhile (fun e => !isLiveEvt e)).all
      (fun e => !isReadyEvt e)) = true := by
  have hstart := start_all env
  have hpre : ∀ x ∈ preSplash, (!isLiveEvt x) = true := by decide
  have h1 : ∀ a ∈ preSplash ++ (start_python_server env).1,
      (fun e => !isLiveEvt e) a = true := by
    intro a ha
    rcases List.mem_append.mp ha with h | h
    · exact hpre a h
    · exact startLoop_notLive (List.all_eq_true.mp hstart a h)
  rw [runTrace, takeWhile_append_left _ _ _ h1, List.all_append, Bool.and_eq_true]
  constructor
  · rw [List.all_append, Bool.and_eq_true]
    exact ⟨by decide, all_imp (fun e he => startLoop_notReady he) hstart⟩
  · cases (start_python_server env).2 <;> rfl

/-- C6: the window-close handler is idempotent on the child-handle
slot.  A second invocation is a no-op returning the emptied slot and
terminating nothing; across two consecutive invocations the server is
stopped at most once; and when no handle was ever stored (launch never
succeeded) the handler is a no-op. -/
theorem c6_shutdown_idempotent (s : Option Nat) :
    closeHandlerStep (closeHandlerStep s).1 = ((closeHandlerStep s).1, false) ∧
    (closeHandlerStep s).2.toNat + (closeHandlerStep (closeHandlerStep s).1).2.toNat ≤ 1 ∧
    closeHandlerStep none = (none, false) := by
  cases s with
  | none => exact ⟨rfl, Nat.zero_le 1, rfl⟩
  | some v => exact ⟨rfl, Nat.le_refl 1, rfl⟩

/-- C7: if the child has already exited when checked after the settle
interval, the settle check fails with an error carrying the displayed
exit status and the captured stdout/stderr, and `start_python_server`
never returns a successful launch in this case. -/
theorem c7_early_exit_error (st : String) (o e : Option String) :
    settleCheck (TryWaitResult.exited st) o e =
      Except.error (earlyExitMsg st (o.getD "") (e.getD "")) ∧
    (∀ env : RunEnv, ∀ pid : Nat, env.tryWait = TryWaitResult.exited st →
      (start_python_server env).2 ≠ Except.ok pid) := by
  refine ⟨rfl, ?_⟩
  intro env pid htw hok
  unfold start_python_server at hok
  split at hok
  next e2 heq => exact Except.noConfusion hok
  next wd heq =>
    split at hok
    next hlog =>
      split at hok
      next hclone =>
        split at hok
        next hspawn => exact Except.noConfusion hok
        next pid2 hspawn =>
          split at hok
          next m hsettle => exact Except.noConfusion hok
          next u hsettle =>
            rw [htw] at hsettle
            exact Except.noConfusion hsettle
      next hclone => exact Except.noConfusion hok
    next hlog => exact Except.noConfusion hok

/-- C7 witness: the early-exit theorem applied to the concrete
environment whose child exits with displayed status "exit status: 1"
inside the settle window. -/
theorem c7_early_exit_witness :
    settleCheck (TryWaitResult.exited "exit status: 1") none none =
      Except.error (earlyExitMsg "exit status: 1" "" "") ∧
    (start_python_server c7Env).2 ≠ Except.ok 1 := by
  constructor
  · exact (c7_early_exit_error "exit status: 1" none none).1
  · exact (c7_early_exit_error "exit status: 1" none none).2 c7Env 1 rfl

/-- C8: whenever the handle slot exists (the run got past launch), it
is non-empty exactly when `start_python_server` returned Ok and no
termination has been requested (`k` close-handler invocations with
`k = 0`); and when the entry file is missing from every directory the
run fails before any spawn — no spawn event is emitted — and no handle
is ever stored. -/
theorem c8_handle_invariant (env : RunEnv) (k : Nat) :
    (∀ h, handleAfter env k = some h →
      (h.isSome = true ↔
        (∃ pid, (start_python_server env).2 = Except.ok pid) ∧ k = 0)) ∧
    ((∀ d, env.renv.hasAppPy d = false) →
      (∃ m, (start_python_server env).2 = Except.error m) ∧
      Event.spawn ∉ (start_python_server env).1 ∧
      handleAfter env k = none) := by
  constructor
  · intro h
    unfold handleAfter
    cases hr : (start_python_server env).2 with
    | error e => intro hsome; exact Option.noConfusion hsome
    | ok pid =>
      intro hsome
      rw [Option.some.injEq] at hsome
      subst hsome
      cases k with
      | zero =>
        constructor
        · intro _
          exact ⟨⟨pid, rfl⟩, rfl⟩
        · intro _
          rfl
      | succ k2 =>
        rw [closeIter_succ]
        constructor
        · intro hfalse
          exact Bool.noConfusion hfalse
        · intro hand
          exact absurd hand.2 (Nat.succ_ne_zero k2)
  · intro hnone
    obtain ⟨m, hm⟩ := resolveStep_error_of_no_app env.renv hnone
    have hse : start_python_server env = ([], Except.error m) := by
      simp [start_python_server, hm]
    refine ⟨⟨m, by rw [hse]⟩, ?_, ?_⟩
    · rw [hse]
      exact List.not_mem_nil _
    · simp [handleAfter, hse]

/-- C8 witness: the invariant theorem applied to a successful run with
no close event (slot holds pid 1), and to a run whose environment has
no entry file anywhere (resolution error, no spawn event, no stored
handle). -/
theorem c8_handle_witness :
    ((some 1 : Option Nat).isSome = true ↔
      (∃ pid, (start_python_server (baseRunEnv okREnv)).2 = Except.ok pid) ∧ 0 = 0) ∧
    ((∃ m, (start_python_server c8MissingEnv).2 = Except.error m) ∧
      Event.spawn ∉ (start_python_server c8MissingEnv).1 ∧
      handleAfter c8MissingEnv 0 = none) := by
  constructor
  · exact (c8_handle_invariant (baseRunEnv okREnv) 0).1 (some 1) rfl
  · exact (c8_handle_invariant c8MissingEnv 0).2 (fun d => rfl)

/-- C9: in both polling phases the root-path fallback is consulted
within an attempt exactly when the primary request failed with a
transport error; a primary response carrying any HTTP status — success
or not — never triggers the fallback. -/
theorem c9_fallback_transport_only (h r : HttpResult) :
    ((livenessAttempt h r).2 = true ↔ h = HttpResult.err) ∧
    ((readinessAttempt h r).2 = true ↔ h = HttpResult.err) := by
  cases h <;> cases r <;> simp [livenessAttempt, readinessAttempt]

/-- C10: on every spawn path the child's standard streams are never
piped, so `child.stdout` and `child.stderr` are absent at capture time
and — whenever the settle-window failure fires — the STDOUT and STDERR
sections embedded in the error are empty, whatever output the child
produced. -/
theorem c10_streams_not_piped (env : RunEnv) (st : String) :
    capturedStdout env = none ∧ capturedStderr env = none ∧
    (∀ wd pid, resolveStep env.renv = Except.ok wd → env.logCreateOk = true →
      env.logCloneOk = true → env.spawnResult = some pid →
      env.tryWait = TryWaitResult.exited st →
      (start_python_server env).2 = Except.error (earlyExitMsg st "" "")) := by
  have ho : capturedStdout env = none := by
    unfold capturedStdout spawnPath
    cases hl : env.launchScriptExists <;> cases hk : env.osKind <;>
      simp [stdoutCfg, pipeHandle]
  have he : capturedStderr env = none := by
    unfold capturedStderr spawnPath
    cases hl : env.launchScriptExists <;> cases hk : env.osKind <;>
      simp [stderrCfg, pipeHandle]
  refine ⟨ho, he, ?_⟩
  intro wd pid hres hlog hclone hspawn htw
  unfold start_python_server
  split
  next e heq => rw [heq] at hres; exact Except.noConfusion hres
  next wd2 heq =>
    rw [hlog, hclone, hspawn, htw, ho, he]
    simp only [if_true, settleCheck, Option.getD_none]

/-- C10 witness: the stream theorem applied to the concrete environment
whose child exits with displayed status "exit status: 127" while its
(hypothetical) stream buffers are non-empty; the error still embeds
empty STDOUT/STDERR sections. -/
theorem c10_streams_witness :
    capturedStdout c10Env = none ∧
    (start_python_server c10Env).2 =
      Except.error (earlyExitMsg "exit status: 127" "" "") := by
  have h := c10_streams_not_piped c10Env "exit status: 127"
  exact ⟨h.1, h.2.2 ["res"] 1 rfl rfl rfl rfl rfl⟩
